import Mathlib

/-!
Shallow embedding of the registration / capacity / payment / sponsorship
core of the Mara-sports backend (`src/backend/app/db/models/*.py` and
`src/backend/app/services/payment_service.py`).

Monetary amounts are fixed-point decimals with two decimal places in the
source (`Numeric(10, 2)`); they are embedded as integers counting minor
units (100.00 becomes 10000), on which Python `Decimal` comparison and
addition coincide with `Int` comparison and addition.  `datetime.utcnow()`
timestamps are passed in explicitly as `Nat` clock values.  Python methods
that mutate `self` become functions returning the updated record; methods
that `raise ValueError(msg)` become functions into `Except String`,
carrying the exact message string of the source.
-/

namespace MaraSports

/-- Embeds `PaymentStatus` (`payment.py`). -/
inductive PaymentStatus where
  | initiated
  | pending
  | success
  | failed
  | cancelled
  | refunded
  | partiallyRefunded
deriving DecidableEq, Repr

/-- Embeds the `Payment` model (`payment.py`): only the columns read or
written by the transition methods and properties under study.  The
`provider_payload` JSON dict is embedded as an association list. -/
structure Payment where
  amount : Int
  status : PaymentStatus := .initiated
  refund_amount : Option Int := none
  refund_reason : Option String := none
  refund_id : Option String := none
  notes : Option String := none
  provider_payment_id : Option String := none
  provider_payload : Option (List (String × String)) := none
  webhook_processed : Bool := false
deriving DecidableEq, Repr

/-- Embeds `Payment.is_successful`. -/
def Payment.is_successful (p : Payment) : Bool :=
  p.status == .success

/-- Embeds `Payment.is_refunded`. -/
def Payment.is_refunded (p : Payment) : Bool :=
  p.status == .refunded || p.status == .partiallyRefunded

/-- Embeds `Payment.can_be_refunded`. -/
def Payment.can_be_refunded (p : Payment) : Bool :=
  p.is_successful && !p.is_refunded

/-- Embeds `Payment.refund_amount_remaining`. -/
def Payment.refund_amount_remaining (p : Payment) : Int :=
  if !p.is_successful then 0
  else match p.refund_amount with
    | none => p.amount
    | some r => p.amount - r

/-- Embeds `Payment.mark_successful` (`if provider_payment_id:` guards are
Python truthiness on optional arguments, embedded as `Option` matches). -/
def Payment.mark_successful (p : Payment) (provider_payment_id : Option String)
    (provider_data : Option (List (String × String))) : Payment :=
  { p with
    status := .success
    provider_payment_id := match provider_payment_id with
      | some s => some s
      | none => p.provider_payment_id
    provider_payload := match provider_data with
      | some d => some d
      | none => p.provider_payload
    webhook_processed := true }

/-- Embeds `Payment.mark_failed`. -/
def Payment.mark_failed (p : Payment) (reason : Option String)
    (provider_data : Option (List (String × String))) : Payment :=
  { p with
    status := .failed
    notes := match reason with
      | some r => some ("Payment failed: " ++ r)
      | none => p.notes
    provider_payload := match provider_data with
      | some d => some d
      | none => p.provider_payload
    webhook_processed := true }

/-- Embeds `Payment.mark_cancelled`. -/
def Payment.mark_cancelled (p : Payment) (reason : Option String) : Payment :=
  { p with
    status := .cancelled
    notes := match reason with
      | some r => some ("Payment cancelled: " ++ r)
      | none => p.notes }

/-- The cumulative refund total after one more refund, as `process_refund`
accumulates it (`self.refund_amount = refund_amount` when unset, else
`self.refund_amount += refund_amount`). -/
def Payment.newRefundTotal (p : Payment) (refund_amount : Int) : Int :=
  match p.refund_amount with
  | none => refund_amount
  | some r => r + refund_amount

/-- Embeds `Payment.process_refund`.  The source raises `ValueError` before
any field is written, so the error case carries no updated payment. -/
def Payment.process_refund (p : Payment) (refund_amount : Int)
    (reason : Option String) (refund_id : Option String) :
    Except String Payment :=
  if !p.can_be_refunded then .error "Payment cannot be refunded"
  else if refund_amount > p.refund_amount_remaining then
    .error "Refund amount exceeds remaining amount"
  else
    let total : Int := p.newRefundTotal refund_amount
    .ok { p with
      refund_amount := some total
      status := if total == p.amount then .refunded else .partiallyRefunded
      refund_reason := match reason with
        | some r => some r
        | none => p.refund_reason
      refund_id := match refund_id with
        | some i => some i
        | none => p.refund_id }

/-- Embeds `SponsorshipStatus` (`sponsorship.py`). -/
inductive SponsorshipStatus where
  | applied
  | underReview
  | approved
  | rejected
  | cancelled
  | expired
deriving DecidableEq, Repr

/-- Embeds the `Sponsorship` model (`sponsorship.py`): the columns touched
by the review transition methods. -/
structure Sponsorship where
  requested_amount : Int
  approved_amount : Option Int := none
  status : SponsorshipStatus := .applied
  reviewed_by : Option String := none
  review_notes : Option String := none
  rejection_reason : Option String := none
deriving DecidableEq, Repr

/-- Embeds `Sponsorship.can_be_approved`. -/
def Sponsorship.can_be_approved (s : Sponsorship) : Bool :=
  s.status == .applied || s.status == .underReview

/-- Embeds `Sponsorship.can_be_rejected`. -/
def Sponsorship.can_be_rejected (s : Sponsorship) : Bool :=
  s.status == .applied || s.status == .underReview

/-- Embeds `Sponsorship.can_be_cancelled`. -/
def Sponsorship.can_be_cancelled (s : Sponsorship) : Bool :=
  s.status == .applied || s.status == .underReview || s.status == .approved

/-- Embeds `Sponsorship.final_amount`. -/
def Sponsorship.final_amount (s : Sponsorship) : Int :=
  match s.approved_amount with
  | some a => a
  | none => s.requested_amount

/-- Embeds `Sponsorship.approve`: the `approved_amount` column is written
only when the argument is not `None` (`if approved_amount is not None:`). -/
def Sponsorship.approve (s : Sponsorship) (approved_amount : Option Int)
    (reviewer : Option String) (notes : Option String) :
    Except String Sponsorship :=
  if !s.can_be_approved then .error "Sponsorship cannot be approved"
  else .ok { s with
    status := .approved
    approved_amount := match approved_amount with
      | some a => some a
      | none => s.approved_amount
    reviewed_by := match reviewer with
      | some r => some r
      | none => s.reviewed_by
    review_notes := match notes with
      | some n => some n
      | none => s.review_notes }

/-- Embeds `Sponsorship.reject`. -/
def Sponsorship.reject (s : Sponsorship) (reason : String)
    (reviewer : Option String) : Except String Sponsorship :=
  if !s.can_be_rejected then .error "Sponsorship cannot be rejected"
  else .ok { s with
    status := .rejected
    rejection_reason := some reason
    reviewed_by := match reviewer with
      | some r => some r
      | none => s.reviewed_by }

/-- Embeds `Sponsorship.cancel`. -/
def Sponsorship.cancel (s : Sponsorship) (reason : Option String) :
    Except String Sponsorship :=
  if !s.can_be_cancelled then .error "Sponsorship cannot be cancelled"
  else .ok { s with
    status := .cancelled
    review_notes := match reason with
      | some r => some ("Cancelled: " ++ r)
      | none => s.review_notes }

/-- Embeds `Sponsorship.mark_under_review`. -/
def Sponsorship.mark_under_review (s : Sponsorship)
    (reviewer : Option String) : Except String Sponsorship :=
  if s.status != .applied then
    .error "Only applied sponsorships can be marked as under review"
  else .ok { s with
    status := .underReview
    reviewed_by := match reviewer with
      | some r => some r
      | none => s.reviewed_by }

/-- Embeds `RegistrationStatus` (`registration.py`). -/
inductive RegistrationStatus where
  | pending
  | confirmed
  | cancelled
  | paid
  | rejected
deriving DecidableEq, Repr

/-- Embeds the `Registration` model (`registration.py`): the columns touched
by its transition methods.  `datetime.utcnow()` is an explicit `now`
argument. -/
structure Registration where
  status : RegistrationStatus := .pending
  confirmed_at : Option Nat := none
  cancelled_at : Option Nat := none
  notes : Option String := none
deriving DecidableEq, Repr

/-- Embeds `Registration.can_be_cancelled`. -/
def Registration.can_be_cancelled (r : Registration) : Bool :=
  r.status == .pending || r.status == .confirmed

/-- Embeds `Registration.confirm`: note the source silently returns when the
status is not `pending` — no exception is raised. -/
def Registration.confirm (r : Registration) (now : Nat) : Registration :=
  if r.status == .pending then
    { r with status := .confirmed, confirmed_at := some now }
  else r

/-- Embeds `Registration.cancel`: a silent no-op when
`can_be_cancelled` is false — no exception is raised. -/
def Registration.cancel (r : Registration) (now : Nat)
    (reason : Option String) : Registration :=
  if r.can_be_cancelled then
    { r with
      status := .cancelled
      cancelled_at := some now
      notes := match reason with
        | some s => some ("Cancelled: " ++ s)
        | none => r.notes }
  else r

/-- Embeds `Registration.reject`: a silent no-op outside `pending`. -/
def Registration.reject (r : Registration) (reason : Option String) :
    Registration :=
  if r.status == .pending then
    { r with
      status := .rejected
      notes := match reason with
        | some s => some ("Rejected: " ++ s)
        | none => r.notes }
  else r

/-- Embeds `Registration.mark_as_paid`: sets `paid` whenever the status is
`confirmed`; the associated `Payment` is not consulted at all, and outside
`confirmed` the call is a silent no-op. -/
def Registration.mark_as_paid (r : Registration) : Registration :=
  if r.status == .confirmed then { r with status := .paid } else r

/-- Embeds the `SportCategory` model (`sport.py`) together with its
`registrations` relationship, the columns used by the eligibility and
capacity properties. -/
structure SportCategory where
  age_from : Option Int := none
  age_to : Option Int := none
  gender_allowed : String := "any"
  max_participants : Int := 100
  fee : Int := 0
  is_active : Bool := true
  registrations : List Registration := []
deriving DecidableEq, Repr

/-- Python truthiness of an optional integer column (`None` and `0` are
falsy), as used by the `if self.age_from and ...` guards. -/
def intTruthy : Option Int → Bool
  | none => false
  | some a => a != 0

/-- Embeds `SportCategory.current_registrations`: the count of related
registrations whose status is `confirmed` or `paid`. -/
def SportCategory.current_registrations (c : SportCategory) : Nat :=
  (c.registrations.filter
    (fun r => r.status == .confirmed || r.status == .paid)).length

/-- Embeds `SportCategory.available_spots`
(`max(0, max_participants - current_registrations)`). -/
def SportCategory.available_spots (c : SportCategory) : Int :=
  max 0 (c.max_participants - (c.current_registrations : Int))

/-- Embeds `SportCategory.is_full`. -/
def SportCategory.is_full (c : SportCategory) : Bool :=
  c.available_spots == 0

/-- Embeds `SportCategory.is_age_eligible`, with the Python truthiness of
the optional bounds kept (`if self.age_from and age < self.age_from`). -/
def SportCategory.is_age_eligible (c : SportCategory) (age : Int) : Bool :=
  if intTruthy c.age_from && age < (c.age_from.getD 0) then false
  else if intTruthy c.age_to && age > (c.age_to.getD 0) then false
  else true

/-- Python `str.lower()` on the ASCII strings of this domain, as a
structural map over the character list (`Char.toLower` lowercases exactly
`A`–`Z`, which agrees with Python on ASCII). -/
def strLower (s : String) : String :=
  String.mk (s.data.map Char.toLower)

/-- Embeds `SportCategory.is_gender_eligible`: an `any` category admits
everyone, otherwise the student's gender string is compared
case-insensitively with `gender_allowed`. -/
def SportCategory.is_gender_eligible (c : SportCategory) (gender : String) :
    Bool :=
  if c.gender_allowed == "any" then true
  else strLower gender == strLower c.gender_allowed

/-- Embeds `SportCategory.can_register`. -/
def SportCategory.can_register (c : SportCategory) (age : Int)
    (gender : String) : Bool :=
  c.is_active && !c.is_full && c.is_age_eligible age &&
    c.is_gender_eligible gender

/-- Replace the element at index `i` by `f` of it (the in-place mutation of
one ORM row among the category's related registrations). -/
def modifyAt (l : List Registration) (i : Nat)
    (f : Registration → Registration) : List Registration :=
  match l.get? i with
  | none => l
  | some r => l.set i (f r)

/-- The operations the repository performs on a category's registration
rows: creating a `pending` registration row (no code path in the source
checks capacity when a row is created), and the four transition methods of
`Registration` applied to one row.  None of them consults
`max_participants`. -/
inductive CategoryOp where
  | createRegistration
  | confirmReg (i : Nat) (now : Nat)
  | cancelReg (i : Nat) (now : Nat) (reason : Option String)
  | rejectReg (i : Nat) (reason : Option String)
  | markPaidReg (i : Nat)
deriving DecidableEq, Repr

/-- Apply one registration-row operation to a category. -/
def applyCategoryOp (c : SportCategory) (op : CategoryOp) : SportCategory :=
  match op with
  | .createRegistration =>
      { c with registrations := c.registrations ++ [{}] }
  | .confirmReg i now =>
      { c with registrations := modifyAt c.registrations i (·.confirm now) }
  | .cancelReg i now reason =>
      { c with registrations :=
          modifyAt c.registrations i (·.cancel now reason) }
  | .rejectReg i reason =>
      { c with registrations := modifyAt c.registrations i (·.reject reason) }
  | .markPaidReg i =>
      { c with registrations := modifyAt c.registrations i (·.mark_as_paid) }

/-- Apply a sequence of registration-row operations. -/
def applyCategoryOps (c : SportCategory) (ops : List CategoryOp) :
    SportCategory :=
  ops.foldl applyCategoryOp c

/-- The payment transition methods as trace operations; a `process_refund`
that raises leaves the row unchanged (the source raises before writing any
field). -/
inductive PaymentOp where
  | markSuccessful (provider_payment_id : Option String)
      (provider_data : Option (List (String × String)))
  | markFailed (reason : Option String)
      (provider_data : Option (List (String × String)))
  | markCancelled (reason : Option String)
  | processRefund (refund_amount : Int) (reason : Option String)
      (refund_id : Option String)
deriving DecidableEq, Repr

/-- Apply one payment transition to a payment row. -/
def applyPaymentOp (p : Payment) (op : PaymentOp) : Payment :=
  match op with
  | .markSuccessful pid d => p.mark_successful pid d
  | .markFailed r d => p.mark_failed r d
  | .markCancelled r => p.mark_cancelled r
  | .processRefund a r i =>
      match p.process_refund a r i with
      | .ok p' => p'
      | .error _ => p

/-- Apply a sequence of payment transitions. -/
def applyPaymentOps (p : Payment) (ops : List PaymentOp) : Payment :=
  ops.foldl applyPaymentOp p

/-- A payment operation with a positive refund amount (the spec's `refund`
signature is `refund(refund_amount>0, reason)`); the marking operations are
unconstrained. -/
def PaymentOp.positiveRefund : PaymentOp → Bool
  | .processRefund a _ _ => 0 < a
  | _ => true

/-- Lookup in an embedded JSON dict (`provider_data.get(key)`). -/
def dictGet (d : Option (List (String × String))) (k : String) :
    Option String :=
  match d with
  | none => none
  | some l =>
      match l.find? (fun kv => kv.1 == k) with
      | some kv => some kv.2
      | none => none

/-- The joint state `PaymentService.update_payment_status` operates on: the
payment row it fetches by id, and (for the claims about orchestration) the
category holding the registration row the payment belongs to.  The service
body reads and writes only the payment row. -/
structure RegPaymentState where
  category : SportCategory
  reg_index : Nat
  payment : Payment
deriving DecidableEq, Repr

namespace PaymentService

/-- Embeds `PaymentService.update_payment_status` (`payment_service.py`):
dispatches on the requested status to `mark_successful` / `mark_failed` /
`mark_cancelled` on the payment row and commits.  The function body never
touches the registration row or the category. -/
def update_payment_status (st : RegPaymentState) (status : PaymentStatus)
    (provider_data : Option (List (String × String))) : RegPaymentState :=
  if status == .success then
    { st with payment :=
        (st.payment.mark_successful (dictGet provider_data "payment_id")
          provider_data) }
  else if status == .failed then
    { st with payment :=
        (st.payment.mark_failed (dictGet provider_data "error_message")
          provider_data) }
  else if status == .cancelled then
    { st with payment :=
        st.payment.mark_cancelled (dictGet provider_data "reason") }
  else st

/-- Embeds `PaymentService.process_refund` (`payment_service.py`): returns
`False` when the payment is not refundable, otherwise substitutes the full
`payment.amount` for a missing (or Python-falsy `0`) `refund_amount` and
delegates to `Payment.process_refund`, whose `ValueError` propagates. -/
def process_refund (p : Payment) (refund_amount : Option Int)
    (reason : Option String) : Except String (Bool × Payment) :=
  if !p.can_be_refunded then .ok (false, p)
  else
    let amt : Int := match refund_amount with
      | none => p.amount
      | some a => if a == 0 then p.amount else a
    match p.process_refund amt reason none with
    | .ok p' => .ok (true, p')
    | .error e => .error e

end PaymentService

/-- `needle` occurs as a contiguous substring of `hay` (used to talk about
whether an error message names a state). -/
def stringContains (hay needle : String) : Bool :=
  decide (needle.data <:+: hay.data)

/-- The invariant `refund_amount ≤ amount` (vacuous while no refund is
recorded). -/
def refundWithinAmount (p : Payment) : Prop :=
  ∀ r : Int, p.refund_amount = some r → r ≤ p.amount

/-- `refund_amount` did not decrease (and was not cleared) from `p` to `q`. -/
def refundNonDecreasing (p q : Payment) : Prop :=
  ∀ r : Int, p.refund_amount = some r →
    ∃ r' : Int, q.refund_amount = some r' ∧ r ≤ r'

/-- A one-seat category with no registrations yet. -/
def oneSeatCategory : SportCategory :=
  { max_participants := 1 }

/-- Create two pending registrations, then confirm both; no step consults
the capacity ceiling. -/
def overfullOps : List CategoryOp :=
  [.createRegistration, .createRegistration, .confirmReg 0 0, .confirmReg 1 0]

/-- A successful payment of 100.00 (10000 minor units), no refund yet. -/
def c2Paid : Payment :=
  { amount := 10000, status := .success }

/-- The payment after refunding 40.00 from `c2Paid`. -/
def c2AfterFirst : Payment :=
  match c2Paid.process_refund 4000 none none with
  | .ok p => p
  | .error _ => c2Paid

/-- A ten-seat category holding one confirmed registration. -/
def c4Category : SportCategory :=
  { max_participants := 10
    fee := 10000
    registrations := [{ status := .confirmed }] }

/-- A confirmed registration in a ten-seat category, with its 100.00 payment
still `initiated`. -/
def c4State : RegPaymentState :=
  { category := c4Category
    reg_index := 0
    payment := { amount := 10000, status := .initiated } }

/-- A freshly applied sponsorship requesting 500.00. -/
def c7Applied : Sponsorship :=
  { requested_amount := 50000 }

/-- A rejected (terminal) sponsorship. -/
def c8Rejected : Sponsorship :=
  { requested_amount := 10000, status := .rejected }

/-- A payment driven through `mark_successful`, a partial refund of 40.00,
and `mark_successful` again (the marking methods have no state guard), so
that it is refundable (`status == success`) while `refund_amount` is
already 40.00. -/
def c10Payment : Payment :=
  applyPaymentOps { amount := 10000 }
    [.markSuccessful none none, .processRefund 4000 none none,
     .markSuccessful none none]

/-- C9: gender eligibility is case-insensitive string equality against
`gender_allowed` unless `gender_allowed` is `any` (which admits every
gender); a `mixed` category admits only students whose gender string equals
`mixed` case-insensitively — not `male` or `female`. -/
theorem C9_gender_eligibility :
    (∀ g : String,
      SportCategory.is_gender_eligible { gender_allowed := "any" } g = true) ∧
    SportCategory.is_gender_eligible { gender_allowed := "mixed" } "mixed"
      = true ∧
    SportCategory.is_gender_eligible { gender_allowed := "mixed" } "MIXED"
      = true ∧
    SportCategory.is_gender_eligible { gender_allowed := "mixed" } "male"
      = false ∧
    SportCategory.is_gender_eligible { gender_allowed := "mixed" } "female"
      = false ∧
    (∀ c : SportCategory, ∀ g : String, c.gender_allowed ≠ "any" →
      SportCategory.is_gender_eligible c g
        = (strLower g == strLower c.gender_allowed)) := by
  refine ⟨fun g => rfl, by decide, by decide, by decide, by decide, ?_⟩
  intro c g h
  simp [SportCategory.is_gender_eligible, h]

/-- C9 witness: the general case-insensitive clause evaluated on a concrete
non-`any` category and gender. -/
theorem C9_gender_eligibility_witness :
    SportCategory.is_gender_eligible { gender_allowed := "mixed" } "Mixed"
      = (strLower "Mixed" == strLower "mixed") :=
  C9_gender_eligibility.2.2.2.2.2 { gender_allowed := "mixed" } "Mixed"
    (by decide)

/-- C1 counterexample: in a category with `max_participants = 1`, creating
two pending registrations and confirming both succeeds at every step
(`Registration.confirm` checks only the status, never the capacity), and
the resulting reachable state has two registrations counted against a
ceiling of one. -/
theorem C1_counterexample :
    (applyCategoryOps oneSeatCategory overfullOps).current_registrations
      = 2 ∧
    (applyCategoryOps oneSeatCategory overfullOps).max_participants = 1 ∧
    ¬(((applyCategoryOps oneSeatCategory overfullOps).current_registrations
        : Int)
      ≤ (applyCategoryOps oneSeatCategory overfullOps).max_participants) := by
  refine ⟨rfl, rfl, by decide⟩

/-- C1 amended: the `can_register` guard does respect the ceiling — it
returns `false` whenever the category is full — so a registration admitted
through `can_register` sees strictly fewer confirmed/paid registrations
than `max_participants`; but nothing in the transition methods themselves
enforces the ceiling. -/
theorem C1_can_register_respects_capacity (c : SportCategory) (age : Int)
    (g : String) (h : c.can_register age g = true) :
    (c.current_registrations : Int) < c.max_participants := by
  simp [SportCategory.can_register, SportCategory.is_full,
    SportCategory.available_spots] at h
  omega

/-- C1 witness: the guard theorem evaluated on a concrete one-seat empty
category. -/
theorem C1_can_register_respects_capacity_witness :
    ((({ max_participants := 1 } : SportCategory).current_registrations
      : Int))
      < ({ max_participants := 1 } : SportCategory).max_participants :=
  C1_can_register_respects_capacity { max_participants := 1 } 20 "male"
    (by decide)

/-- C2 counterexample: on a successful payment of 100.00, the first refund
of 40.00 succeeds (cumulative 40.00, status `partially_refunded`), but the
second refund of 30.00 fails with `Payment cannot be refunded`:
`can_be_refunded` requires `status == success` and a `partially_refunded`
payment is excluded, so the claimed second success (and cumulative 70.00)
never happens. -/
theorem C2_counterexample :
    c2Paid.process_refund 4000 none none = .ok c2AfterFirst ∧
    c2AfterFirst.refund_amount = some 4000 ∧
    c2AfterFirst.status = .partiallyRefunded ∧
    c2AfterFirst.process_refund 3000 none none
      = .error "Payment cannot be refunded" :=
  ⟨rfl, rfl, rfl, rfl⟩

/-- C2 amended: refunding 40.00 of a successful 100.00 payment leaves
cumulative `refund_amount` 40.00 and status `partially_refunded`, and the
subsequent refund of 30.00 fails with `Payment cannot be refunded`: a
payment is refundable exactly when its status is `success`, so a
`partially_refunded` payment may not receive further refunds. -/
theorem C2_partial_refund_is_terminal :
    c2Paid.process_refund 4000 none none = .ok c2AfterFirst ∧
    c2AfterFirst.refund_amount = some 4000 ∧
    c2AfterFirst.status = .partiallyRefunded ∧
    c2AfterFirst.process_refund 3000 none none
      = .error "Payment cannot be refunded" ∧
    (∀ p : Payment, p.can_be_refunded = (p.status == .success)) := by
  refine ⟨rfl, rfl, rfl, rfl, fun p => ?_⟩
  cases h : p.status <;>
    simp [Payment.can_be_refunded, Payment.is_successful, Payment.is_refunded,
      h]

/-- C4 counterexample: with a confirmed registration and its 100.00 payment
in hand, `PaymentService.update_payment_status(..., FAILED)` marks the
payment failed but the registration stays `confirmed` and the category's
occupied count stays 1 — the seat is not released, ruling out the claimed
cancellation and decrement. -/
theorem C4_counterexample :
    (PaymentService.update_payment_status c4State .failed none).payment.status
      = .failed ∧
    ((PaymentService.update_payment_status c4State .failed
        none).category.registrations.get? 0).map Registration.status
      = some .confirmed ∧
    (PaymentService.update_payment_status c4State .failed
        none).category.current_registrations = 1 ∧
    c4State.category.current_registrations = 1 :=
  ⟨rfl, rfl, rfl, rfl⟩

/-- C4 amended: marking the payment failed through
`PaymentService.update_payment_status` sets the payment's status to
`failed` but leaves the category — hence every registration row and the
occupied count — exactly as it was: no compensating seat release exists in
the code. -/
theorem C4_mark_failed_releases_nothing (st : RegPaymentState)
    (pd : Option (List (String × String))) :
    (PaymentService.update_payment_status st .failed pd).payment.status
      = .failed ∧
    (PaymentService.update_payment_status st .failed pd).category
      = st.category ∧
    (PaymentService.update_payment_status st .failed
        pd).category.current_registrations
      = st.category.current_registrations :=
  ⟨rfl, rfl, rfl⟩

/-- C5 counterexample: a registration whose associated payment has status
`failed` (not `success`) is still moved `confirmed → paid` by
`mark_as_paid`, which never consults the payment. -/
theorem C5_counterexample :
    Payment.is_successful { amount := 10000, status := .failed } = false ∧
    (Registration.mark_as_paid { status := .confirmed }).status = .paid :=
  ⟨rfl, rfl⟩

/-- C5 amended: `mark_as_paid` transitions `confirmed → paid`
unconditionally — in particular also when the associated payment is not
successful — and is a silent no-op from any other status. -/
theorem C5_mark_as_paid_ignores_payment (r : Registration) (p : Payment) :
    (p.is_successful = false → r.status = .confirmed →
      r.mark_as_paid = { r with status := .paid }) ∧
    (r.status ≠ .confirmed → r.mark_as_paid = r) := by
  constructor
  · intro _ h
    simp [Registration.mark_as_paid, h]
  · intro h
    simp [Registration.mark_as_paid, h]

/-- C5 witness: the amended statement evaluated on a confirmed registration
with a failed 100.00 payment. -/
theorem C5_mark_as_paid_ignores_payment_witness :
    Registration.mark_as_paid { status := .confirmed }
      = { status := RegistrationStatus.paid } :=
  (C5_mark_as_paid_ignores_payment { status := .confirmed }
    { amount := 10000, status := .failed }).1 rfl rfl

/-- C6 counterexample: cancelling a registration in state `paid` returns
the registration unchanged — `Registration.cancel` is a total function with
no error channel, so the attempt silently no-ops instead of failing with
`CannotCancelPaidRegistration` (or any typed error). -/
theorem C6_counterexample :
    Registration.cancel { status := .paid } 0 none
      = { status := RegistrationStatus.paid } :=
  rfl

/-- C6 amended: every transition method invoked from a state where it is
invalid silently returns the registration unchanged, with no error of any
kind; in particular cancelling a `paid` registration leaves it `paid`. -/
theorem C6_invalid_transitions_silently_noop (r : Registration) (now : Nat)
    (reason : Option String) :
    (r.status ≠ .pending → r.confirm now = r) ∧
    (r.can_be_cancelled = false → r.cancel now reason = r) ∧
    (r.status = .paid → r.cancel now reason = r) ∧
    (r.status ≠ .pending → r.reject reason = r) ∧
    (r.status ≠ .confirmed → r.mark_as_paid = r) := by
  refine ⟨fun h => ?_, fun h => ?_, fun h => ?_, fun h => ?_, fun h => ?_⟩
  · simp [Registration.confirm, h]
  · simp [Registration.cancel, h]
  · simp [Registration.cancel, Registration.can_be_cancelled, h]
  · simp [Registration.reject, h]
  · simp [Registration.mark_as_paid, h]

/-- C6 witness: the no-op clauses evaluated on a concrete `paid`
registration. -/
theorem C6_invalid_transitions_silently_noop_witness :
    Registration.cancel { status := .paid } 7 (some "user request")
      = { status := RegistrationStatus.paid } :=
  (C6_invalid_transitions_silently_noop { status := .paid } 7
    (some "user request")).2.2.1 rfl

/-- C7 counterexample: approving an applied sponsorship with
`approved_amount` omitted leaves the stored `approved_amount` as `none`
rather than setting it to `requested_amount` (so `approved_amount` is NOT
set while status is `approved`), and approving with a negative amount is
accepted and stored rather than rejected. -/
theorem C7_counterexample :
    c7Applied.approve none none none
      = .ok { requested_amount := 50000, status := .approved } ∧
    c7Applied.approve (some (-100)) none none
      = .ok { requested_amount := 50000, approved_amount := some (-100),
              status := .approved } :=
  ⟨rfl, rfl⟩

/-- C7 amended: from `applied` or `under_review`, `approve` succeeds and
sets status `approved`; with the amount omitted the stored
`approved_amount` is left unchanged (for a sponsorship with no prior
approved amount it stays `none`, and only the derived `final_amount`
property falls back to `requested_amount`); any explicit amount — zero or
negative included — is accepted and stored verbatim. -/
theorem C7_approve_behavior (s : Sponsorship) (rv nt : Option String)
    (h : s.can_be_approved = true) :
    (∃ s', s.approve none rv nt = .ok s' ∧ s'.status = .approved ∧
      s'.approved_amount = s.approved_amount ∧
      (s.approved_amount = none → s'.final_amount = s.requested_amount)) ∧
    (∀ a : Int, ∃ s', s.approve (some a) rv nt = .ok s' ∧
      s'.status = .approved ∧ s'.approved_amount = some a) := by
  constructor
  · simp only [Sponsorship.approve, h, Bool.not_true, Bool.false_eq_true,
      if_false]
    exact ⟨_, rfl, rfl, rfl, fun hn => by simp [Sponsorship.final_amount, hn]⟩
  · intro a
    simp only [Sponsorship.approve, h, Bool.not_true, Bool.false_eq_true,
      if_false]
    exact ⟨_, rfl, rfl, rfl⟩

/-- C7 witness: the amended statement evaluated on the concrete applied
sponsorship requesting 500.00, with the omitted-amount clause discharged. -/
theorem C7_approve_behavior_witness :
    ∃ s', c7Applied.approve none none none = .ok s' ∧
      s'.status = .approved ∧ s'.approved_amount = c7Applied.approved_amount ∧
      (c7Applied.approved_amount = none →
        s'.final_amount = c7Applied.requested_amount) :=
  (C7_approve_behavior c7Applied none none rfl).1

/-- C8 counterexample: a transition attempt on a terminal (rejected)
sponsorship does fail, but with the fixed message `Sponsorship cannot be
approved`, which does not name the current state (`rejected` occurs nowhere
in it) — the same message a cancelled or expired sponsorship receives. -/
theorem C8_counterexample :
    c8Rejected.approve none none none
      = .error "Sponsorship cannot be approved" ∧
    stringContains "Sponsorship cannot be approved" "rejected" = false ∧
    Sponsorship.approve { requested_amount := 10000, status := .expired }
        none none none
      = .error "Sponsorship cannot be approved" :=
  ⟨rfl, by decide, rfl⟩

/-- C8 amended: from every terminal state (`rejected`, `cancelled`,
`expired`) each of the four transition methods fails — raising `ValueError`
with a fixed message that names at most the attempted operation, never the
current state — and, the source raising before any write, the sponsorship
is left unchanged. -/
theorem C8_terminal_transitions_fail (s : Sponsorship)
    (h : s.status = .rejected ∨ s.status = .cancelled ∨ s.status = .expired)
    (am : Option Int) (rv nt creason : Option String) (reason : String) :
    s.approve am rv nt = .error "Sponsorship cannot be approved" ∧
    s.reject reason rv = .error "Sponsorship cannot be rejected" ∧
    s.cancel creason = .error "Sponsorship cannot be cancelled" ∧
    s.mark_under_review rv
      = .error "Only applied sponsorships can be marked as under review" := by
  rcases h with h | h | h <;>
    exact ⟨by simp [Sponsorship.approve, Sponsorship.can_be_approved, h],
      by simp [Sponsorship.reject, Sponsorship.can_be_rejected, h],
      by simp [Sponsorship.cancel, Sponsorship.can_be_cancelled, h],
      by simp [Sponsorship.mark_under_review, h]⟩

/-- C8 witness: the amended statement evaluated on the concrete rejected
sponsorship. -/
theorem C8_terminal_transitions_fail_witness :
    c8Rejected.approve none none none
      = .error "Sponsorship cannot be approved" ∧
    c8Rejected.reject "dup" none = .error "Sponsorship cannot be rejected" ∧
    c8Rejected.cancel none = .error "Sponsorship cannot be cancelled" ∧
    c8Rejected.mark_under_review none
      = .error "Only applied sponsorships can be marked as under review" :=
  C8_terminal_transitions_fail c8Rejected (Or.inl rfl) none none none none
    "dup"

/-- C10 counterexample: a payment that is refundable (`can_be_refunded` is
true) but already carries `refund_amount` 40.00 — reachable by marking it
successful again after a partial refund, since `mark_successful` has no
state guard — makes `PaymentService.process_refund` with the amount
omitted raise `Refund amount exceeds remaining amount` instead of refunding
in full. -/
theorem C10_counterexample :
    c10Payment.can_be_refunded = true ∧
    c10Payment.refund_amount = some 4000 ∧
    PaymentService.process_refund c10Payment none none
      = .error "Refund amount exceeds remaining amount" :=
  ⟨rfl, rfl, rfl⟩

/-- C10 amended: for a refundable payment with no refund recorded yet,
`PaymentService.process_refund` with the amount omitted substitutes the
full `payment.amount`; the refund succeeds, leaving `refund_amount` equal
to `amount` and status `refunded`. -/
theorem C10_omitted_amount_refunds_in_full (p : Payment)
    (reason : Option String) (h1 : p.can_be_refunded = true)
    (h2 : p.refund_amount = none) :
    ∃ p', PaymentService.process_refund p none reason = .ok (true, p') ∧
      p'.refund_amount = some p.amount ∧ p'.status = .refunded := by
  have hs : p.is_successful = true := by
    have h := h1
    simp [Payment.can_be_refunded, Bool.and_eq_true] at h
    exact h.1
  have hrem : p.refund_amount_remaining = p.amount := by
    simp [Payment.refund_amount_remaining, hs, h2]
  have hnt : p.newRefundTotal p.amount = p.amount := by
    simp [Payment.newRefundTotal, h2]
  simp only [PaymentService.process_refund, h1, Bool.not_true,
    Bool.false_eq_true, if_false, Payment.process_refund, hrem, gt_iff_lt,
    lt_irrefl, hnt, beq_self_eq_true, if_true]
  exact ⟨_, rfl, by simp [hnt, h2], rfl⟩

/-- C10 witness: the amended statement evaluated on a fresh successful
payment of 5.00. -/
theorem C10_omitted_amount_refunds_in_full_witness :
    ∃ p', PaymentService.process_refund { amount := 500, status := .success }
        none none = .ok (true, p') ∧
      p'.refund_amount
        = some ({ amount := 500, status := .success } : Payment).amount ∧
      p'.status = .refunded :=
  C10_omitted_amount_refunds_in_full { amount := 500, status := .success }
    none rfl rfl

/-- What a successful `process_refund` did: both guards passed, `amount` is
untouched, the cumulative total was stored, and the status was recomputed
from the total. -/
theorem process_refund_ok {p : Payment} {amt : Int} {rsn rid : Option String}
    {p' : Payment} (h : p.process_refund amt rsn rid = .ok p') :
    p.can_be_refunded = true ∧ amt ≤ p.refund_amount_remaining ∧
    p'.amount = p.amount ∧ p'.refund_amount = some (p.newRefundTotal amt) ∧
    p'.status = (if p.newRefundTotal amt == p.amount then
      PaymentStatus.refunded else .partiallyRefunded) := by
  by_cases h1 : p.can_be_refunded
  · by_cases h2 : amt > p.refund_amount_remaining
    · simp [Payment.process_refund, h1, h2] at h
    · simp only [Payment.process_refund, h1, Bool.not_true,
        Bool.false_eq_true, if_false, h2, Except.ok.injEq] at h
      exact ⟨h1, le_of_not_lt h2, by rw [← h], by rw [← h], by rw [← h]⟩
  · simp [Payment.process_refund, h1] at h

/-- A refused `process_refund` leaves the payment row unchanged in the
trace semantics (the source raises before writing any field). -/
theorem applyPaymentOp_error {p : Payment} {amt : Int}
    {rsn rid : Option String} {e : String}
    (h : p.process_refund amt rsn rid = .error e) :
    applyPaymentOp p (.processRefund amt rsn rid) = p := by
  simp [applyPaymentOp, h]

/-- No payment transition changes `amount` (it is fixed at creation). -/
theorem applyPaymentOp_amount (p : Payment) (op : PaymentOp) :
    (applyPaymentOp p op).amount = p.amount := by
  cases op with
  | markSuccessful pid d => rfl
  | markFailed r d => rfl
  | markCancelled r => rfl
  | processRefund a r i =>
    simp only [applyPaymentOp]
    cases h : p.process_refund a r i with
    | ok p' => exact (process_refund_ok h).2.2.1
    | error e => rfl

/-- A refund transition either leaves the row unchanged (the guard raised)
or replaces it by the successful result of `process_refund`. -/
theorem applyPaymentOp_refund_eq (p : Payment) (a : Int)
    (rsn rid : Option String) :
    applyPaymentOp p (.processRefund a rsn rid) = p ∨
    ∃ p', p.process_refund a rsn rid = .ok p' ∧
      applyPaymentOp p (.processRefund a rsn rid) = p' := by
  simp only [applyPaymentOp]
  cases h : p.process_refund a rsn rid with
  | error e => exact Or.inl rfl
  | ok p' => exact Or.inr ⟨p', rfl, rfl⟩

/-- If a refund argument passed the remaining-amount guard of a successful
payment, the accumulated total stays within `amount`. -/
theorem newRefundTotal_le {p : Payment} {a : Int}
    (hs : p.is_successful = true) (hle : a ≤ p.refund_amount_remaining) :
    p.newRefundTotal a ≤ p.amount := by
  rw [Payment.refund_amount_remaining, hs] at hle
  simp only [Bool.not_true, Bool.false_eq_true, if_false] at hle
  rw [Payment.newRefundTotal]
  cases hpra : p.refund_amount with
  | none =>
    rw [hpra] at hle
    have hle' : a ≤ p.amount := hle
    show a ≤ p.amount
    exact hle'
  | some r0 =>
    rw [hpra] at hle
    have hle' : a ≤ p.amount - r0 := hle
    show r0 + a ≤ p.amount
    omega

/-- One payment transition preserves `refund_amount ≤ amount`. -/
theorem applyPaymentOp_within (p : Payment) (op : PaymentOp)
    (hw : refundWithinAmount p) :
    refundWithinAmount (applyPaymentOp p op) := by
  cases op with
  | markSuccessful pid d => exact fun r hr => hw r hr
  | markFailed r d => exact fun r hr => hw r hr
  | markCancelled r => exact fun r hr => hw r hr
  | processRefund a rsn rid =>
    rcases applyPaymentOp_refund_eq p a rsn rid with heq | ⟨p', hok, heq⟩
    · rw [heq]; exact hw
    · rw [heq]
      intro r hr
      obtain ⟨hcan, hle, ham, hra, _⟩ := process_refund_ok hok
      rw [hra] at hr
      injection hr with hr
      rw [ham, ← hr]
      have hs : p.is_successful = true := by
        have h' := hcan
        simp [Payment.can_be_refunded, Bool.and_eq_true] at h'
        exact h'.1
      exact newRefundTotal_le hs hle

/-- One payment transition with a positive refund argument never decreases
(or clears) `refund_amount`. -/
theorem applyPaymentOp_mono (p : Payment) (op : PaymentOp)
    (hpos : op.positiveRefund = true) :
    refundNonDecreasing p (applyPaymentOp p op) := by
  cases op with
  | markSuccessful pid d => exact fun r hr => ⟨r, hr, le_refl r⟩
  | markFailed r d => exact fun r hr => ⟨r, hr, le_refl r⟩
  | markCancelled r => exact fun r hr => ⟨r, hr, le_refl r⟩
  | processRefund a rsn rid =>
    rcases applyPaymentOp_refund_eq p a rsn rid with heq | ⟨p', hok, heq⟩
    · rw [heq]; exact fun r hr => ⟨r, hr, le_refl r⟩
    · rw [heq]
      intro r hr
      obtain ⟨_, _, _, hra, _⟩ := process_refund_ok hok
      refine ⟨p.newRefundTotal a, hra, ?_⟩
      have ha : (0 : Int) < a := by
        simp only [PaymentOp.positiveRefund] at hpos
        exact of_decide_eq_true hpos
      have hnt : p.newRefundTotal a = r + a := by
        rw [Payment.newRefundTotal, hr]
      rw [hnt]
      omega

/-- `refundNonDecreasing` composes across intermediate states. -/
theorem refundNonDecreasing_trans {p q s : Payment}
    (h1 : refundNonDecreasing p q) (h2 : refundNonDecreasing q s) :
    refundNonDecreasing p s := by
  intro r hr
  obtain ⟨r1, hq, hle1⟩ := h1 r hr
  obtain ⟨r2, hs, hle2⟩ := h2 r1 hq
  exact ⟨r2, hs, le_trans hle1 hle2⟩

/-- Any sequence of payment transitions with positive refund arguments
preserves `refund_amount ≤ amount` and never decreases `refund_amount`. -/
theorem applyPaymentOps_invariants (ops : List PaymentOp) :
    ∀ p : Payment, ops.all PaymentOp.positiveRefund = true →
      (refundWithinAmount p → refundWithinAmount (applyPaymentOps p ops)) ∧
      refundNonDecreasing p (applyPaymentOps p ops) := by
  induction ops with
  | nil => exact fun p _ => ⟨id, fun r hr => ⟨r, hr, le_refl r⟩⟩
  | cons op ops ih =>
    intro p hall
    rw [List.all_cons, Bool.and_eq_true] at hall
    have step := applyPaymentOp_mono p op hall.1
    have rest := ih (applyPaymentOp p op) hall.2
    exact ⟨fun hw => rest.1 (applyPaymentOp_within p op hw),
      refundNonDecreasing_trans step rest.2⟩

/-- C3: over every sequence of payment transitions (with the refund
arguments positive, as the spec's `refund(refund_amount>0, ...)` signature
requires), `refund_amount` never exceeds `amount` and never decreases; a
refund whose amount exceeds `amount − current refund_amount` fails with the
`ExceedsRemaining` error and leaves the payment unchanged; and a successful
refund stores the accumulated total and sets status `refunded` when the
total equals `amount`, else `partially_refunded`. -/
theorem C3_refund_accounting :
    (∀ (p : Payment) (ops : List PaymentOp),
      ops.all PaymentOp.positiveRefund = true → refundWithinAmount p →
      refundWithinAmount (applyPaymentOps p ops) ∧
      refundNonDecreasing p (applyPaymentOps p ops)) ∧
    (∀ (p : Payment) (amt : Int) (rsn rid : Option String),
      p.can_be_refunded = true → amt > p.refund_amount_remaining →
      p.process_refund amt rsn rid
        = .error "Refund amount exceeds remaining amount") ∧
    (∀ (p : Payment) (amt : Int) (rsn rid : Option String) (e : String),
      p.process_refund amt rsn rid = .error e →
      applyPaymentOp p (.processRefund amt rsn rid) = p) ∧
    (∀ (p p' : Payment) (amt : Int) (rsn rid : Option String),
      p.process_refund amt rsn rid = .ok p' →
      p'.refund_amount = some (p.newRefundTotal amt) ∧
      p'.status = (if p.newRefundTotal amt == p.amount then
        PaymentStatus.refunded else .partiallyRefunded)) := by
  refine ⟨?_, ?_, ?_, ?_⟩
  · intro p ops hall hw
    have h := applyPaymentOps_invariants ops p hall
    exact ⟨h.1 hw, h.2⟩
  · intro p amt rsn rid h1 h2
    simp [Payment.process_refund, h1, h2]
  · intro p amt rsn rid e h
    exact applyPaymentOp_error h
  · intro p p' amt rsn rid h
    exact ⟨(process_refund_ok h).2.2.2.1, (process_refund_ok h).2.2.2.2⟩

/-- C3 witness: the trace invariants evaluated on a fresh successful
payment of 100.00 refunded 40.00. -/
theorem C3_refund_accounting_witness :
    refundWithinAmount
      (applyPaymentOps { amount := 10000, status := .success }
        [.processRefund 4000 none none]) ∧
    refundNonDecreasing { amount := 10000, status := .success }
      (applyPaymentOps { amount := 10000, status := .success }
        [.processRefund 4000 none none]) :=
  C3_refund_accounting.1 { amount := 10000, status := .success }
    [.processRefund 4000 none none] rfl (fun _ hr => nomatch hr)

end MaraSports
